import Mathlib

/-!
Verification of the multi-platform fan-out posting coordinator
(`post_manager.py` and its collaborators `llm_generator.py`,
`post_to_reddit.py`, `post_to_twitter.py`, `utils.py`, `config.py`).

The Python code is shallowly embedded: pure helpers become Lean
functions; the external collaborators (LLM generator, the three
platform adapters, the SQLite logging sink) are modelled as behaviour
fields of an explicit environment record; a Python exception is
modelled as the `Except.error` branch carrying `str(exception)`;
calls to external collaborators are counted in an explicit trace so
that call-count claims ("the generator is called exactly once",
"adapter of a succeeded platform is never invoked again") are
statable.

The shipped `config.py` hard-codes `enabled: True` for all three
platforms, so the platform enumeration is the fixed three-element
type below and `PLATFORMS_enabled` is constantly `true`, exactly as
in the source.
-/

/-- The fixed platform set of `config.PLATFORMS` (`config.py`, lines 36-52),
in dictionary insertion order: twitter, linkedin, reddit. -/
inductive Platform
  | twitter
  | linkedin
  | reddit
deriving DecidableEq, Repr

/-- The string key used for a platform in the Python dictionaries. -/
def Platform.name : Platform → String
  | .twitter => "twitter"
  | .linkedin => "linkedin"
  | .reddit => "reddit"

/-- `config.PLATFORMS.items()` iteration order (Python dicts iterate in
insertion order). -/
def allPlatforms : List Platform := [.twitter, .linkedin, .reddit]

/-- `config.PLATFORMS[p]["enabled"]` — hard-coded `True` for all three
platforms in `config.py`. -/
def PLATFORMS_enabled : Platform → Bool := fun _ => true

/-- The per-platform outcome dictionary returned by the adapters and by
the synthetic-failure branches of `_post_to_platforms`: it always has a
`success` key; failures carry an `error` message; successes may carry a
`url`. Other success-only keys (ids, titles) are not needed by any
claim and are omitted. -/
structure Outcome where
  success : Bool
  error : Option String := none
  url : Option String := none
deriving DecidableEq, Repr

/-- `{"success": False, "error": msg}`. -/
def mkFail (msg : String) : Outcome := { success := false, error := some msg }

/-- Python truthiness of a `str | None` value, as used by
`if not any(posts.values())` and `if content and ...` in
`post_manager.py`: `None` and the empty string are falsy. -/
def pyTruthy : Option String → Bool
  | none => false
  | some s => !(s == "")

/-- Python slicing `s[:n]`: the first `n` characters. -/
def pySlice (s : String) (n : Nat) : String := String.mk (s.data.take n)

/-- Python `s.lower()` (character-wise lower-casing; the lookup-table
keys are plain ASCII, for which this agrees with Python). -/
def pyLower (s : String) : String := String.mk (s.data.map Char.toLower)

/-- `utils.truncate_content` (`utils.py`, lines 88-100). Python `len`
counts characters, as `String.length` does. -/
def truncate_content (content : String) (max_length : Nat) (platform : String) : String :=
  if content.length ≤ max_length then
    content
  else if platform == "twitter" then
    (pySlice content (max_length - 10)) ++ "..."
  else
    (pySlice content (max_length - 3)) ++ "..."

/-- Python substring containment `needle in hay` for strings. -/
def strContains (hay needle : String) : Bool :=
  (List.range (hay.length + 1)).any
    (fun i => ((hay.toList.drop i).take needle.length) == needle.toList)

/-- The `subreddit_mapping` table of `RedditPoster.get_suitable_subreddits`
(`post_to_reddit.py`, lines 166-179), in insertion order. -/
def subreddit_mapping : List (String × List String) :=
  [("ai", ["artificial", "MachineLearning", "singularity", "technology"]),
   ("technology", ["technology", "programming", "coding", "tech"]),
   ("business", ["business", "entrepreneur", "startups", "investing"]),
   ("education", ["education", "teaching", "learning", "studytips"]),
   ("science", ["science", "askscience", "EverythingScience"]),
   ("programming", ["programming", "coding", "learnprogramming", "webdev"]),
   ("finance", ["personalfinance", "investing", "financialindependence"]),
   ("health", ["health", "fitness", "nutrition", "wellness"]),
   ("gaming", ["gaming", "games", "pcgaming", "nintendo"]),
   ("music", ["music", "WeAreTheMusicMakers", "edmproduction"]),
   ("art", ["art", "drawing", "painting", "design"]),
   ("photography", ["photography", "photocritique", "itookapicture"])]

/-- The default list used when no keyword of the table occurs in the
lower-cased topic (`post_to_reddit.py`, line 189). -/
def defaultSubreddits : List String := ["test", "CasualConversation", "discussion"]

/-- The accumulation loop of `get_suitable_subreddits`
(`post_to_reddit.py`, lines 182-185): extend the suggestion list with
every table entry whose key occurs in the lower-cased topic. -/
def rawMatches (topic : String) : List String :=
  subreddit_mapping.foldl
    (fun acc kv => if strContains (pyLower topic) kv.1 then acc ++ kv.2 else acc) []

/-- `RedditPoster.get_suitable_subreddits` (`post_to_reddit.py`,
lines 160-191): lower-case the topic, append every table entry whose
key occurs as a substring, fall back to the default list when nothing
matched, and return the first three suggestions. -/
def get_suitable_subreddits (topic : String) : List String :=
  let suitable_subreddits := rawMatches topic
  let suitable_subreddits :=
    if suitable_subreddits.isEmpty then defaultSubreddits else suitable_subreddits
  suitable_subreddits.take 3

/-- The sub-forum routing decision of `PostManager._post_to_single_platform`
(`post_manager.py`, lines 134-135): `subreddits[0] if subreddits else "test"`. -/
def redditTarget (idea : String) : String :=
  match get_suitable_subreddits idea with
  | [] => "test"
  | s :: _ => s

/-!
## The coordinator environment

`PostManager` talks to four external collaborators: the LLM generator,
and one adapter per platform, plus the per-future collection step of
the thread pool.  Their behaviour during one `process_idea` /
`retry_failed_posts` call is captured by an `Env` record.  A Python
exception raised by a collaborator is the `Except.error` branch, the
string being `str(exception)`.
-/

/-- Behaviour of the external collaborators during one coordinator call.

* `adapterInit p` — whether platform `p`'s adapter initialized
  (`twitter_poster.client is not None`,
  `linkedin_poster.access_token/user_id is not None`,
  `reddit_poster.reddit is not None`), the second conjunct of
  `_check_platform_availability` (`post_manager.py`, lines 33-56).
* `gen p` — what `LLMGenerator.generate_posts` stores under key `p`:
  the generated text on success, `none` when `_generate_single_post`
  raised (the `except` branch stores `None`, `llm_generator.py`,
  lines 25-34).
* `twitterPub` / `linkedinPub` — the adapter publish calls,
  `(content, original_idea) ↦ outcome`; `Except.error e` models the
  call raising an exception with message `e`.
* `redditPub` — `RedditPoster.post_to_reddit (content, original_idea,
  subreddit_name)`.
* `collect p` — `some e` models `future.result(...)` raising an
  exception with message `e` for platform `p` in the collection loop
  of `_post_to_platforms` (lines 113-121); `none` models it returning
  the worker's value. -/
structure Env where
  adapterInit : Platform → Bool
  gen : Platform → Option String
  twitterPub : String → String → Except String Outcome
  linkedinPub : String → String → Except String Outcome
  redditPub : String → String → String → Except String Outcome
  collect : Platform → Option String

/-- `PostManager._check_platform_availability` (`post_manager.py`,
lines 33-56): configuration-enabled AND adapter initialized. -/
def availability (env : Env) (p : Platform) : Bool :=
  PLATFORMS_enabled p && env.adapterInit p

/-- `LLMGenerator.generate_posts` (`llm_generator.py`, lines 21-35):
one entry per enabled platform, in `config.PLATFORMS` order; value
`None` when generation for that platform raised.  The function itself
never raises: each iteration catches its own exception. -/
def generate_posts (env : Env) : List (Platform × Option String) :=
  allPlatforms.filterMap
    (fun p => if PLATFORMS_enabled p then some (p, env.gen p) else none)

/-- The raw adapter call issued by `_post_to_single_platform`
(`post_manager.py`, lines 127-136) before its `except` clause: the
string-keyed dispatch to the platform adapter.  For reddit, the
sub-forum is selected in the coordinator via `get_suitable_subreddits`
before the adapter's publish call. -/
def Env.pubRaw (env : Env) (p : Platform) (content original_idea : String) :
    Except String Outcome :=
  match p with
  | .twitter => env.twitterPub content original_idea
  | .linkedin => env.linkedinPub content original_idea
  | .reddit => env.redditPub content original_idea (redditTarget original_idea)

/-- The `except Exception` boundary of `_post_to_single_platform`
(`post_manager.py`, lines 140-143): an exception from the adapter is
converted into that platform's failure outcome. -/
def wrapDispatch (pname : String) (r : Except String Outcome) : Outcome :=
  match r with
  | .ok o => o
  | .error e => mkFail ("Error posting to " ++ pname ++ ": " ++ e)

/-- `PostManager._post_to_single_platform` (`post_manager.py`,
lines 125-143).  The `"Unknown platform"` branch is unreachable here:
the `posts` keys produced by `generate_posts` are exactly the three
`config.PLATFORMS` keys, which `Platform` enumerates. -/
def post_to_single_platform (env : Env) (p : Platform)
    (content original_idea : String) : Outcome :=
  wrapDispatch p.name (env.pubRaw p content original_idea)

/-- The outcome that `_post_to_platforms` (`post_manager.py`,
lines 95-123) records for one `(platform, content)` entry of `posts`:

* content truthy and platform available — the platform is dispatched;
  the collection loop stores either the worker's outcome or, if
  collecting the future raises `e`, the converted failure
  `"Exception posting to {platform}: {e}"` (lines 113-121);
* content falsy — synthetic `{"success": False, "error": "No content
  generated"}` (line 108);
* otherwise — synthetic `{"success": False, "error": "Platform not
  available"}` (line 110). -/
def outcome_for (env : Env) (original_idea : String) (p : Platform)
    (content : Option String) : Outcome :=
  if pyTruthy content && availability env p then
    match env.collect p with
    | some e => mkFail ("Exception posting to " ++ p.name ++ ": " ++ e)
    | none => post_to_single_platform env p (content.getD "") original_idea
  else if !(pyTruthy content) then
    mkFail "No content generated"
  else
    mkFail "Platform not available"

/-- The platforms submitted to the executor by `_post_to_platforms`
(line 104-105): content truthy AND platform available.  These are
exactly the platforms whose adapter publish call is invoked. -/
def dispatched (env : Env) (posts : List (Platform × Option String)) : List Platform :=
  (posts.filter (fun pc => pyTruthy pc.2 && availability env pc.1)).map Prod.fst

/-- A coordinator return value together with the calls it made to the
external collaborators: `genCalls` counts invocations of
`LLMGenerator.generate_posts`, `pubCalls` lists the platforms whose
adapter publish call was issued. -/
structure Traced (α : Type) where
  val : α
  genCalls : Nat
  pubCalls : List Platform
deriving Repr

/-- `PostManager._post_to_platforms` (`post_manager.py`, lines 95-123)
as a finite mapping: the Python `results` dict receives exactly one
entry per key of `posts` (synthetic branches in the submission loop,
dispatched ones in the collection loop), so it is the map below keyed
by the `posts` keys. -/
def post_to_platforms (env : Env) (posts : List (Platform × Option String))
    (original_idea : String) : Traced (List (Platform × Outcome)) :=
  ⟨posts.map (fun pc => (pc.1, outcome_for env original_idea pc.1 pc.2)),
   0, dispatched env posts⟩

/-- Return value of `PostManager.process_idea` (`post_manager.py`,
lines 58-93): either the fail-fast dictionary
`{"success": False, "error": ...}` or the full result with `results`,
`successful_posts`, `total_platforms` and the echoed idea. -/
inductive ProcResult
  | failure (error : String)
  | ok (success : Bool) (results : List (Platform × Outcome))
      (successful_posts : Nat) (total_platforms : Nat) (idea : String)
deriving DecidableEq, Repr

/-- The `results` mapping of a `process_idea` return value (empty on
the fail-fast branch, which carries no `results` key). -/
def ProcResult.resultsOf : ProcResult → List (Platform × Outcome)
  | .failure _ => []
  | .ok _ r _ _ _ => r

/-- The `total_platforms` field (0 on the fail-fast branch). -/
def ProcResult.totalOf : ProcResult → Nat
  | .failure _ => 0
  | .ok _ _ _ t _ => t

/-- The top-level `success` flag. -/
def ProcResult.successOf : ProcResult → Bool
  | .failure _ => false
  | .ok s _ _ _ _ => s

/-- The `successful_posts` field (0 on the fail-fast branch). -/
def ProcResult.countOf : ProcResult → Nat
  | .failure _ => 0
  | .ok _ _ c _ _ => c

/-- `PostManager.process_idea` (`post_manager.py`, lines 58-93):
generate once; fail fast when no generated value is truthy; otherwise
fan out and aggregate.  `success_count` counts outcomes with
`success = True`; `total_platforms` counts the available platforms;
the top-level `success` is `success_count > 0`.  Nothing in the model
raises, so the outer `except` branch (lines 90-93) is not taken. -/
def process_idea (env : Env) (idea : String) : Traced ProcResult :=
  let posts := generate_posts env
  if ((posts.map Prod.snd).any pyTruthy) = false then
    ⟨.failure "Failed to generate any posts", 1, []⟩
  else
    let r := post_to_platforms env posts idea
    let success_count := (r.val.filter (fun po => po.2.success)).length
    let total_platforms := (allPlatforms.filter (fun p => availability env p)).length
    ⟨.ok (decide (0 < success_count)) r.val success_count total_platforms idea,
     1, r.pubCalls⟩

/-- Return value of `PostManager.retry_failed_posts` (`post_manager.py`,
lines 197-227): either the immediate
`{"success": True, "message": "No failed posts to retry"}` or the full
retry result with `results` and `retried_platforms`. -/
inductive RetryResult
  | noFailed (success : Bool) (message : String)
  | retried (success : Bool) (results : List (Platform × Outcome))
      (retried_platforms : List Platform)
deriving DecidableEq, Repr

/-- The `retried_platforms` field (empty on the no-op branch, which
carries no such key). -/
def RetryResult.retriedOf : RetryResult → List Platform
  | .noFailed _ _ => []
  | .retried _ _ ps => ps

/-- The platforms whose prior outcome has `success` falsy — the
`failed_platforms` list of `retry_failed_posts` (lines 199-203). -/
def failedOf (prior : List (Platform × Outcome)) : List Platform :=
  (prior.filter (fun po => po.2.success == false)).map Prod.fst

/-- `PostManager.retry_failed_posts` (`post_manager.py`, lines 197-227).
`prior` is `original_results.get("results", {})`.  If no prior outcome
failed, return the no-op success immediately.  Otherwise, for each
failed AND available platform, call `generate_posts` (once per such
platform — the call sits inside the loop) and keep that platform's
entry; unavailable failed platforms get no `posts` entry at all.  Then
re-run the fan-out and return its results together with
`retried_platforms = failed_platforms` (all prior failures, dispatched
or not). -/
def retry_failed_posts (env : Env) (prior : List (Platform × Outcome))
    (idea : String) : Traced RetryResult :=
  let failed := failedOf prior
  if failed.isEmpty then
    ⟨.noFailed true "No failed posts to retry", 0, []⟩
  else
    let posts := failed.filterMap
      (fun p =>
        if availability env p then
          some (p, ((generate_posts env).lookup p).getD none)
        else none)
    let genCalls := (failed.filter (fun p => availability env p)).length
    let r := post_to_platforms env posts idea
    ⟨.retried (r.val.any (fun po => po.2.success)) r.val failed, genCalls, r.pubCalls⟩

/-!
## Timed model of the collection loop

`_post_to_platforms` collects results with
`for future in as_completed(future_to_platform): future.result(timeout=60)`
(`post_manager.py`, lines 113-121).  `as_completed` is called without a
timeout argument, so the loop yields each future only once that future
has completed and blocks indefinitely on a future that never completes;
`future.result(timeout=60)` is then applied to an already-completed
future, so its `TimeoutError` can never fire.  The model below gives
each dispatched worker a duration (`none` = the adapter call never
returns) and returns `none` when the collection loop never terminates,
otherwise the collected mapping together with the elapsed wall-clock
time (the loop finishes when the slowest dispatched future does).
-/

/-- Timed semantics of the collection loop of `_post_to_platforms`:
`none` when some dispatched platform never completes (the loop blocks
forever and no result mapping is ever produced); otherwise the same
mapping as `post_to_platforms` paired with the time at which collection
finishes. -/
def post_to_platforms_timed (env : Env) (dur : Platform → Option Nat)
    (posts : List (Platform × Option String)) (idea : String) :
    Option (List (Platform × Outcome) × Nat) :=
  if (dispatched env posts).all (fun p => (dur p).isSome) then
    some ((post_to_platforms env posts idea).val,
          (dispatched env posts).foldl (fun m p => max m ((dur p).getD 0)) 0)
  else
    none

/-!
## The Twitter adapter and the logging sink

`TwitterPoster.post_tweet` (`post_to_twitter.py`, lines 50-105) calls
the `utils.log_post` sink inside its `try` block, and again inside
every `except` handler.  A raising sink (e.g. a failing SQLite
database) is modelled by `logFail = true`: every `log_post` call
raises.  Tracing the source with `logFail = true`:

* client not initialized — `log_post` on line 54 sits outside the
  `try`, so the exception propagates out of `post_tweet`;
* `create_tweet` succeeded with data — the success `log_post`
  (line 68) raises inside the `try`; the `except Exception` handler
  (lines 101-105) catches it, and the handler's own `log_post`
  (line 104) raises again and propagates out of `post_tweet`;
* `create_tweet` succeeded without data, or raised — the matching
  handler's `log_post` raises and propagates likewise.

In every case the sink failure escapes `post_tweet` and is converted
to a failure outcome by the `except` boundary of
`_post_to_single_platform` (`wrapDispatch`). -/

/-- The `tweepy` exceptions distinguished by `post_tweet`'s handlers. -/
inductive TweepyExc
  | tooManyRequests
  | forbidden (msg : String)
  | badRequest (msg : String)
  | other (msg : String)
deriving DecidableEq, Repr

/-- The error message built by the `except` handler matching each
exception (`post_to_twitter.py`, lines 83-105). -/
def tweepyMsg : TweepyExc → String
  | .tooManyRequests => "Twitter API rate limit exceeded"
  | .forbidden m => "Twitter API access forbidden: " ++ m
  | .badRequest m => "Twitter API bad request: " ++ m
  | .other m => "Unexpected error posting to Twitter: " ++ m

/-- Behaviour of the Twitter remote API and of the logging sink during
one `post_tweet` call: `clientInit` is `self.client is not None`;
`createTweet content` returns `some tweet_id` when `response.data` is
truthy, `none` when falsy, and `Except.error` when the call raises;
`logFail` means every `utils.log_post` call raises (a broken SQLite
sink). -/
structure TwitterEnv where
  clientInit : Bool
  createTweet : String → Except TweepyExc (Option String)
  logFail : Bool

/-- Representative message of the exception raised by a broken
`log_post` sink (an `sqlite3.OperationalError`). -/
def dbErr : String := "database is locked"

/-- `TwitterPoster.post_tweet` (`post_to_twitter.py`, lines 50-105),
with the raising logging sink traced as described above:
`Except.error` models `post_tweet` itself raising. -/
def post_tweet (tenv : TwitterEnv) (content original_idea : String) :
    Except String Outcome :=
  if tenv.clientInit = false then
    if tenv.logFail then .error dbErr
    else .ok (mkFail "Twitter API not initialized")
  else
    let content := truncate_content content 280 "twitter"
    match tenv.createTweet content with
    | .ok (some tweet_id) =>
        if tenv.logFail then .error dbErr
        else .ok { success := true,
                   url := some ("https://twitter.com/user/status/" ++ tweet_id) }
    | .ok none =>
        if tenv.logFail then .error dbErr
        else .ok (mkFail "No data returned from Twitter API")
    | .error e =>
        if tenv.logFail then .error dbErr
        else .ok (mkFail (tweepyMsg e))

/-!
## Concrete environments for witnesses and counterexamples
-/

/-- Inert adapter behaviour: the call returns a failure outcome. -/
def okFalse : Except String Outcome := .ok { success := false }

/-- Adapter behaviour that succeeds. -/
def okTrue : Except String Outcome := .ok { success := true }

/-- The scenario of spec section 8: twitter available with content,
linkedin available without content, reddit unavailable with content. -/
def env1 : Env :=
  { adapterInit := fun p => match p with | .reddit => false | _ => true
    gen := fun p => match p with
      | .twitter => some "Post about AI"
      | .linkedin => none
      | .reddit => some "Post about AI"
    twitterPub := fun _ _ => okTrue
    linkedinPub := fun _ _ => okFalse
    redditPub := fun _ _ _ => okFalse
    collect := fun _ => none }

/-- All platforms available with content; the twitter adapter raises. -/
def env2 : Env :=
  { adapterInit := fun _ => true
    gen := fun _ => some "content"
    twitterPub := fun _ _ => .error "boom"
    linkedinPub := fun _ _ => okTrue
    redditPub := fun _ _ _ => okTrue
    collect := fun _ => none }

/-- Same as `env2` except the twitter adapter succeeds. -/
def env2x : Env :=
  { adapterInit := fun _ => true
    gen := fun _ => some "content"
    twitterPub := fun _ _ => okTrue
    linkedinPub := fun _ _ => okTrue
    redditPub := fun _ _ _ => okTrue
    collect := fun _ => none }

/-- All platforms available, but generation produced nothing for
twitter: a publish call is issued for two platforms only. -/
def env3 : Env :=
  { adapterInit := fun _ => true
    gen := fun p => match p with
      | .twitter => none
      | .linkedin => some "x"
      | .reddit => some "y"
    twitterPub := fun _ _ => okTrue
    linkedinPub := fun _ _ => okTrue
    redditPub := fun _ _ _ => okTrue
    collect := fun _ => none }

/-- No adapter initialized (all platforms unavailable). -/
def env4 : Env :=
  { adapterInit := fun _ => false
    gen := fun _ => some "g"
    twitterPub := fun _ _ => okTrue
    linkedinPub := fun _ _ => okTrue
    redditPub := fun _ _ _ => okTrue
    collect := fun _ => none }

/-- Prior result whose only entry is a failed twitter outcome. -/
def prior4 : List (Platform × Outcome) := [(.twitter, mkFail "x")]

/-- All platforms available with content; used for the retry witness. -/
def env4w : Env :=
  { adapterInit := fun _ => true
    gen := fun _ => some "regenerated"
    twitterPub := fun _ _ => okTrue
    linkedinPub := fun _ _ => okTrue
    redditPub := fun _ _ _ => okTrue
    collect := fun _ => none }

/-- Prior result: twitter failed, linkedin succeeded. -/
def prior4w : List (Platform × Outcome) :=
  [(.twitter, mkFail "x"), (.linkedin, { success := true })]

/-- Twitter and linkedin dispatched; reddit unavailable. -/
def env5 : Env :=
  { adapterInit := fun p => match p with | .reddit => false | _ => true
    gen := fun p => match p with
      | .twitter => some "a"
      | .linkedin => some "b"
      | .reddit => none
    twitterPub := fun _ _ => okTrue
    linkedinPub := fun _ _ => okTrue
    redditPub := fun _ _ _ => okTrue
    collect := fun _ => none }

/-- Worker durations: the twitter adapter never returns, the linkedin
adapter returns after one time-unit. -/
def dur5 : Platform → Option Nat :=
  fun p => match p with | .twitter => none | .linkedin => some 1 | .reddit => some 1

/-- Generation failed for every platform. -/
def env6 : Env :=
  { adapterInit := fun _ => false
    gen := fun _ => none
    twitterPub := fun _ _ => okFalse
    linkedinPub := fun _ _ => okFalse
    redditPub := fun _ _ _ => okFalse
    collect := fun _ => none }

/-- Prior result in which every outcome succeeded. -/
def prior7 : List (Platform × Outcome) := [(.twitter, { success := true })]

/-- The remote Twitter API accepts the tweet, but every `log_post`
call raises. -/
def tenv8 : TwitterEnv :=
  { clientInit := true
    createTweet := fun _ => .ok (some "123")
    logFail := true }

/-- Coordinator environment whose twitter adapter is the modelled
`post_tweet` running against `tenv8`. -/
def env8 : Env :=
  { adapterInit := fun p => match p with | .twitter => true | _ => false
    gen := fun p => match p with | .twitter => some "hello" | _ => none
    twitterPub := fun c i => post_tweet tenv8 c i
    linkedinPub := fun _ _ => okFalse
    redditPub := fun _ _ _ => okFalse
    collect := fun _ => none }

/-!
## Conclusion predicates of the longer claims
-/

/-- Conclusion of claim C1: after a non-all-absent
generation, the results mapping is keyed by exactly `allPlatforms`
(one entry each, no duplicates) — which, with the shipped
configuration, is both the ContentSet key set and the AvailabilityMap
key set, hence their union — and each entry follows the synthetic /
real outcome rules of `_post_to_platforms`. -/
def C1Concl (env : Env) (idea : String) : Prop :=
  (process_idea env idea).val.resultsOf
      = allPlatforms.map (fun p => (p, outcome_for env idea p (env.gen p))) ∧
  (process_idea env idea).val.resultsOf.map Prod.fst = allPlatforms ∧
  allPlatforms.Nodup ∧
  (∀ p : Platform,
    (pyTruthy (env.gen p) = false →
      outcome_for env idea p (env.gen p) = mkFail "No content generated") ∧
    (pyTruthy (env.gen p) = true → availability env p = false →
      outcome_for env idea p (env.gen p) = mkFail "Platform not available") ∧
    (pyTruthy (env.gen p) = true → availability env p = true →
      outcome_for env idea p (env.gen p) =
        match env.collect p with
        | some e => mkFail ("Exception posting to " ++ p.name ++ ": " ++ e)
        | none => post_to_single_platform env p ((env.gen p).getD "") idea))

/-- Conclusion of claim C2: the aggregated mapping keeps one entry per
dispatched key; entries of platforms other than `p` do not depend on
`p`'s adapter or collection behaviour; and an exception of `p`'s
adapter, or one raised while collecting `p`'s future, becomes `p`'s
failure outcome. -/
def C2Concl (env env2 : Env) (p : Platform)
    (posts : List (Platform × Option String)) (idea : String) : Prop :=
  ((post_to_platforms env posts idea).val.map Prod.fst = posts.map Prod.fst) ∧
  (∀ q c, (q, c) ∈ posts → q ≠ p →
    ((q, outcome_for env idea q c) ∈ (post_to_platforms env posts idea).val ∧
     (q, outcome_for env2 idea q c) ∈ (post_to_platforms env2 posts idea).val ∧
     outcome_for env idea q c = outcome_for env2 idea q c)) ∧
  (∀ c, pyTruthy c = true → availability env p = true →
    ((∀ e, env.collect p = some e →
       outcome_for env idea p c
         = mkFail ("Exception posting to " ++ p.name ++ ": " ++ e)) ∧
     (∀ e, env.collect p = none → env.pubRaw p (c.getD "") idea = .error e →
       outcome_for env idea p c
         = mkFail ("Error posting to " ++ p.name ++ ": " ++ e))))

/-- Conclusion of claim C3 (amended): `success` is `success_count > 0`
and `total_platforms` counts the available platforms (regardless of
content). -/
def C3Concl (env : Env) (idea : String) : Prop :=
  ((process_idea env idea).val.successOf = true ↔
    0 < (process_idea env idea).val.countOf) ∧
  (process_idea env idea).val.countOf
    = (((process_idea env idea).val.resultsOf).filter (fun po => po.2.success)).length ∧
  (process_idea env idea).val.totalOf
    = (allPlatforms.filter (fun p => availability env p)).length

/-- Conclusion of claim C4 (amended): `retried_platforms` is the full
list of previously-failed platforms; a publish call is issued only for
previously-failed, currently-available platforms; the adapter of a
platform whose prior outcome succeeded is never invoked. -/
def C4Concl (env : Env) (prior : List (Platform × Outcome)) (idea : String) : Prop :=
  ((retry_failed_posts env prior idea).val.retriedOf = failedOf prior) ∧
  (∀ p ∈ (retry_failed_posts env prior idea).pubCalls,
      p ∈ failedOf prior ∧ availability env p = true) ∧
  (∀ p o, (p, o) ∈ prior → o.success = true →
      p ∉ (retry_failed_posts env prior idea).pubCalls)

/-!
## Helper lemmas
-/

/-- The accumulation loop over the lookup table equals the accumulator
followed by the concatenated suggestion lists of the matching entries. -/
theorem foldl_matches_eq (f : String × List String → Bool) :
    ∀ (l : List (String × List String)) (acc : List String),
      l.foldl (fun a kv => if f kv then a ++ kv.2 else a) acc
        = acc ++ ((l.filter f).map Prod.snd).flatten := by
  intro l
  induction l with
  | nil => intro acc; simp
  | cons kv t ih =>
    intro acc
    by_cases h : f kv
    · simp [h, ih, List.append_assoc]
    · simp [h, ih]

/-- In an association list with duplicate-free keys, a key determines
its value. -/
theorem keys_nodup_unique {α β : Type} :
    ∀ (l : List (α × β)), (l.map Prod.fst).Nodup →
      ∀ (a : α) (b c : β), (a, b) ∈ l → (a, c) ∈ l → b = c := by
  intro l
  induction l with
  | nil =>
    intro _ a b c hb
    cases hb
  | cons x t ih =>
    intro hnd a b c hb hc
    rw [List.map_cons] at hnd
    have hx : x.1 ∉ t.map Prod.fst := (List.nodup_cons.mp hnd).1
    have hnd2 : (t.map Prod.fst).Nodup := (List.nodup_cons.mp hnd).2
    rcases List.mem_cons.mp hb with hb1 | hb1
    · rcases List.mem_cons.mp hc with hc1 | hc1
      · rw [← hb1] at hc1
        exact (congrArg Prod.snd hc1).symm
      · exfalso
        apply hx
        rw [← hb1]
        exact List.mem_map.mpr ⟨(a, c), hc1, rfl⟩
    · rcases List.mem_cons.mp hc with hc1 | hc1
      · exfalso
        apply hx
        rw [← hc1]
        exact List.mem_map.mpr ⟨(a, b), hb1, rfl⟩
      · exact ih hnd2 a b c hb1 hc1

/-!
## The claims
-/

/-- Claim C10: for every topic, `get_suitable_subreddits` returns a
list with at least one and at most three elements; consequently the
coordinator's `subreddits[0]` never fails, and the `"test"` fallback
branch guarding an empty suggestion list is unreachable — the chosen
target is always an element of the returned list. -/
theorem claim_c10 (topic : String) :
    get_suitable_subreddits topic ≠ [] ∧
    (get_suitable_subreddits topic).length ≤ 3 ∧
    redditTarget topic ∈ get_suitable_subreddits topic := by
  have hshape : get_suitable_subreddits topic
      = (if (rawMatches topic).isEmpty then defaultSubreddits
         else rawMatches topic).take 3 := rfl
  have hne : get_suitable_subreddits topic ≠ [] := by
    rw [hshape]
    cases h : rawMatches topic with
    | nil => simp [h, defaultSubreddits]
    | cons a t => simp [h]
  refine ⟨hne, ?_, ?_⟩
  · rw [hshape, List.length_take]
    exact Nat.min_le_left 3 _
  · unfold redditTarget
    cases h : get_suitable_subreddits topic with
    | nil => exact absurd h hne
    | cons a t => simp [h]

/-- Claim C9: the pre-publish sub-forum routing decision for the forum
platform is made in the coordinator, before the adapter's publish
call: `post_to_single_platform` hands the reddit adapter the target
`redditTarget idea`, which is the first element of the candidate list;
the candidate list is built by keyword containment of the lookup-table
keys in the lower-cased idea and falls back to the fixed default list
when no keyword matches.  The decision is a pure function of the idea,
so two runs with the same idea choose the same target. -/
theorem claim_c9 (env : Env) (content idea : String) :
    post_to_single_platform env .reddit content idea
      = wrapDispatch "reddit" (env.redditPub content idea (redditTarget idea)) ∧
    redditTarget idea = (get_suitable_subreddits idea).headD "test" ∧
    rawMatches idea = ((subreddit_mapping.filter
        (fun kv => strContains (pyLower idea) kv.1)).map Prod.snd).flatten ∧
    get_suitable_subreddits idea
      = (if (rawMatches idea).isEmpty then defaultSubreddits
         else rawMatches idea).take 3 := by
  refine ⟨rfl, ?_, ?_, rfl⟩
  · unfold redditTarget
    cases h : get_suitable_subreddits idea <;> simp [h]
  · unfold rawMatches
    simpa using foldl_matches_eq
      (fun kv => strContains (pyLower idea) kv.1) subreddit_mapping []

/-- Claim C6: `process_idea` calls the content generator exactly once,
and when every generated entry is absent (falsy), it returns the
fail-fast error `{"success": False, "error": "Failed to generate any
posts"}` immediately, issuing no publish call. -/
theorem claim_c6 (env : Env) (idea : String) :
    (process_idea env idea).genCalls = 1 ∧
    ((((generate_posts env).map Prod.snd).any pyTruthy) = false →
      (process_idea env idea).val = .failure "Failed to generate any posts" ∧
      (process_idea env idea).pubCalls = []) := by
  unfold process_idea
  by_cases h : (((generate_posts env).map Prod.snd).any pyTruthy) = false
  · simp [h]
  · simp [h]

/-- Witness for C6 at an environment where generation fails for every
platform. -/
theorem claim_c6_witness :
    ((((generate_posts env6).map Prod.snd).any pyTruthy) = false) ∧
    (process_idea env6 "AI in education").genCalls = 1 ∧
    (process_idea env6 "AI in education").val
        = .failure "Failed to generate any posts" ∧
    (process_idea env6 "AI in education").pubCalls = [] := by
  refine ⟨by decide, (claim_c6 env6 "AI in education").1, ?_, ?_⟩
  · exact ((claim_c6 env6 "AI in education").2 (by decide)).1
  · exact ((claim_c6 env6 "AI in education").2 (by decide)).2

/-- Claim C7: when no prior per-platform outcome is a failure,
`retry_failed_posts` returns the distinguishing no-op success
`{"success": True, "message": "No failed posts to retry"}` immediately,
invoking neither the content generator nor any platform adapter. -/
theorem claim_c7 (env : Env) (prior : List (Platform × Outcome)) (idea : String)
    (h : ∀ po ∈ prior, po.2.success = true) :
    (retry_failed_posts env prior idea).val
        = .noFailed true "No failed posts to retry" ∧
    (retry_failed_posts env prior idea).genCalls = 0 ∧
    (retry_failed_posts env prior idea).pubCalls = [] := by
  have hfil : prior.filter (fun po => po.2.success == false) = [] := by
    rw [List.filter_eq_nil_iff]
    intro a ha
    simp [h a ha]
  have hf : failedOf prior = [] := by
    unfold failedOf
    rw [hfil]
    rfl
  simp [retry_failed_posts, hf]

/-- Witness for C7 at an all-success prior result. -/
theorem claim_c7_witness :
    (∀ po ∈ prior7, po.2.success = true) ∧
    (retry_failed_posts env6 prior7 "idea").val
        = .noFailed true "No failed posts to retry" ∧
    (retry_failed_posts env6 prior7 "idea").genCalls = 0 ∧
    (retry_failed_posts env6 prior7 "idea").pubCalls = [] := by
  refine ⟨by decide, ?_, ?_, ?_⟩
  · exact (claim_c7 env6 prior7 "idea" (by decide)).1
  · exact (claim_c7 env6 prior7 "idea" (by decide)).2.1
  · exact (claim_c7 env6 prior7 "idea" (by decide)).2.2

/-- Platforms dispatched from a `posts` mapping built by keeping only
available platforms of a base list are themselves in the base list and
available. -/
theorem dispatched_sub (env : Env) (l : List Platform) (g : Platform → Option String) :
    ∀ p ∈ dispatched env (l.filterMap (fun q =>
        if availability env q then some (q, g q) else none)),
      p ∈ l ∧ availability env p = true := by
  intro p hp
  unfold dispatched at hp
  rcases List.mem_map.mp hp with ⟨pc, hpc, rfl⟩
  rcases List.mem_filter.mp hpc with ⟨hmem, hcond⟩
  rcases List.mem_filterMap.mp hmem with ⟨q, hq, hqe⟩
  by_cases hA : availability env q = true
  · rw [if_pos hA] at hqe
    have hpceq : (q, g q) = pc := Option.some.inj hqe
    rw [← hpceq]
    exact ⟨hq, hA⟩
  · rw [if_neg hA] at hqe
    cases hqe

/-- When some generated entry is truthy, `process_idea` takes the
fan-out branch. -/
theorem process_idea_fanout (env : Env) (idea : String)
    (h : (((generate_posts env).map Prod.snd).any pyTruthy) = true) :
    process_idea env idea =
      ⟨.ok (decide (0 < ((post_to_platforms env (generate_posts env) idea).val.filter
              (fun po => po.2.success)).length))
          (post_to_platforms env (generate_posts env) idea).val
          (((post_to_platforms env (generate_posts env) idea).val.filter
              (fun po => po.2.success)).length)
          ((allPlatforms.filter (fun p => availability env p)).length)
          idea,
       1,
       (post_to_platforms env (generate_posts env) idea).pubCalls⟩ := by
  simp only [process_idea]
  rw [h, if_neg (by decide)]

/-- Claim C1: for a `process_idea` call whose ContentSet is
not entirely absent, the results mapping has exactly one outcome per
platform of `allPlatforms` — with the shipped configuration this is
both the ContentSet key set and the AvailabilityMap key set, hence
their union — with absent content mapped to the synthetic
`"No content generated"` failure, present-but-unavailable platforms
mapped to the synthetic `"Platform not available"` failure, and each
remaining platform mapped to its single real publish outcome. -/
theorem claim_c1 (env : Env) (idea : String)
    (h : (((generate_posts env).map Prod.snd).any pyTruthy) = true) :
    C1Concl env idea := by
  have hres : (process_idea env idea).val.resultsOf
      = allPlatforms.map (fun p => (p, outcome_for env idea p (env.gen p))) := by
    rw [process_idea_fanout env idea h]
    rfl
  refine ⟨hres, ?_, by decide, ?_⟩
  · rw [hres]
    rfl
  · intro p
    refine ⟨?_, ?_, ?_⟩
    · intro h1
      simp [outcome_for, h1]
    · intro h1 h2
      simp [outcome_for, h1, h2]
    · intro h1 h2
      cases hc : env.collect p <;> simp [outcome_for, h1, h2, hc]

/-- Witness for C1 at the scenario of spec section 8. -/
theorem claim_c1_witness :
    ((((generate_posts env1).map Prod.snd).any pyTruthy) = true) ∧
    C1Concl env1 "AI in education" :=
  ⟨by decide, claim_c1 env1 "AI in education" (by decide)⟩

/-- Claim C2: an exception raised by a platform's adapter, or while
collecting its future, is converted into that platform's failure
outcome at the dispatch boundary, and the outcomes of the other
platforms are unaffected by (and appear alongside it in) the same
aggregated mapping. -/
theorem claim_c2 (env env2 : Env) (p : Platform)
    (hInit : env.adapterInit = env2.adapterInit)
    (hPub : ∀ q, q ≠ p → ∀ c i, env.pubRaw q c i = env2.pubRaw q c i)
    (hCol : ∀ q, q ≠ p → env.collect q = env2.collect q)
    (posts : List (Platform × Option String)) (idea : String) :
    C2Concl env env2 p posts idea := by
  have hAvail : ∀ q, availability env q = availability env2 q := by
    intro q
    unfold availability
    rw [hInit]
  have hOut : ∀ q c, q ≠ p → outcome_for env idea q c = outcome_for env2 idea q c := by
    intro q c hq
    unfold outcome_for post_to_single_platform
    rw [hAvail q, hCol q hq, hPub q hq]
  refine ⟨?_, ?_, ?_⟩
  · simp [post_to_platforms, List.map_map]
  · intro q c hqc hq
    refine ⟨?_, ?_, hOut q c hq⟩
    · exact List.mem_map.mpr ⟨(q, c), hqc, rfl⟩
    · exact List.mem_map.mpr ⟨(q, c), hqc, rfl⟩
  · intro c hT hA
    constructor
    · intro e he
      simp [outcome_for, hT, hA, he]
    · intro e hn hraw
      simp [outcome_for, hT, hA, hn, post_to_single_platform, hraw, wrapDispatch]

/-- Witness for C2: the twitter adapter of `env2` raises `"boom"`
while `env2x` differs from `env2` only in the twitter adapter. -/
theorem claim_c2_witness :
    (env2.adapterInit = env2x.adapterInit) ∧
    C2Concl env2 env2x .twitter (generate_posts env2) "idea" :=
  ⟨rfl, claim_c2 env2 env2x .twitter rfl
    (by
      intro q hq c i
      cases q with
      | twitter => exact absurd rfl hq
      | linkedin => rfl
      | reddit => rfl)
    (by intro q _; rfl)
    (generate_posts env2) "idea"⟩

/-- Claim C3, first part confirmed and second part amended:
`overall_success` is true iff the success count is strictly positive,
but `total_platforms` counts all available platforms, regardless of
whether content was generated for them. -/
theorem claim_c3_amended (env : Env) (idea : String)
    (h : (((generate_posts env).map Prod.snd).any pyTruthy) = true) :
    C3Concl env idea := by
  refine ⟨?_, ?_, ?_⟩
  · rw [process_idea_fanout env idea h]
    simp [ProcResult.successOf, ProcResult.countOf]
  · rw [process_idea_fanout env idea h]
    rfl
  · rw [process_idea_fanout env idea h]
    rfl

/-- Counterexample for C3 as stated: in `env3` all three platforms are
available but generation produced content for only two, so the
reported total is 3 while only 2 platforms had a real publish call
issued. -/
theorem claim_c3_counterexample :
    (process_idea env3 "idea").val.totalOf = 3 ∧
    (allPlatforms.filter
        (fun p => pyTruthy (env3.gen p) && availability env3 p)).length = 2 := by
  decide

/-- Witness for C3 (amended) at `env3`. -/
theorem claim_c3_witness :
    ((((generate_posts env3).map Prod.snd).any pyTruthy) = true) ∧
    C3Concl env3 "idea" :=
  ⟨by decide, claim_c3_amended env3 "idea" (by decide)⟩

/-- Claim C4 (amended): retry dispatches publish calls only to
previously-failed, currently-available platforms, and the adapter of a
previously-succeeded platform is never invoked again; however the
returned `retried_platforms` lists all previously-failed platforms,
including failed platforms that were unavailable and therefore not
dispatched. -/
theorem claim_c4_amended (env : Env) (prior : List (Platform × Outcome)) (idea : String)
    (hne : failedOf prior ≠ [])
    (hnd : (prior.map Prod.fst).Nodup) :
    C4Concl env prior idea := by
  have hE : (failedOf prior).isEmpty = false := by
    cases hF : failedOf prior with
    | nil => exact absurd hF hne
    | cons a t => rfl
  have hcalls : (retry_failed_posts env prior idea).pubCalls
      = dispatched env ((failedOf prior).filterMap (fun p =>
          if availability env p then
            some (p, ((generate_posts env).lookup p).getD none)
          else none)) := by
    simp [retry_failed_posts, hE, post_to_platforms]
  have hsub : ∀ p ∈ (retry_failed_posts env prior idea).pubCalls,
      p ∈ failedOf prior ∧ availability env p = true := by
    rw [hcalls]
    exact dispatched_sub env (failedOf prior) _
  refine ⟨?_, hsub, ?_⟩
  · simp [retry_failed_posts, hE, RetryResult.retriedOf]
  · intro p o hpo hsucc hmem
    have h1 := (hsub p hmem).1
    unfold failedOf at h1
    rcases List.mem_map.mp h1 with ⟨po2, hpo2, hfst⟩
    rcases List.mem_filter.mp hpo2 with ⟨hmem2, hcond⟩
    have hfail : po2.2.success = false := by
      simpa using hcond
    have hpair : (p, po2.2) ∈ prior := by
      have hpe : po2 = (p, po2.2) := by
        cases po2 with
        | mk a b =>
          simp only at hfst
          rw [hfst]
      rw [← hpe]
      exact hmem2
    have heq := keys_nodup_unique prior hnd p o po2.2 hpo hpair
    rw [heq] at hsucc
    rw [hsucc] at hfail
    exact Bool.noConfusion hfail

/-- Counterexample for C4 as stated: in `env4` no platform is
available; twitter's prior outcome failed, so `retried_platforms`
reports twitter even though no publish call was issued to any
platform — `retried_platforms` is not the set of platforms actually
retried. -/
theorem claim_c4_counterexample :
    Platform.twitter ∈ (retry_failed_posts env4 prior4 "idea").val.retriedOf ∧
    Platform.twitter ∉ (retry_failed_posts env4 prior4 "idea").pubCalls ∧
    (retry_failed_posts env4 prior4 "idea").pubCalls = [] := by
  decide

/-- Witness for C4 (amended) at a prior result with one failed and one
succeeded platform, everything available. -/
theorem claim_c4_witness :
    (failedOf prior4w ≠ []) ∧ ((prior4w.map Prod.fst).Nodup) ∧
    C4Concl env4w prior4w "idea" :=
  ⟨by decide, by decide,
   claim_c4_amended env4w prior4w "idea" (by decide) (by decide)⟩

/-- Claim C5, evaluated at the failing input: twitter is dispatched
and its worker never returns (`dur5 .twitter = none`) while linkedin
returns after one time-unit; under the timed semantics of the
collection loop (`as_completed` with no timeout argument,
`future.result(timeout=60)` applied only to already-completed
futures), the collection never terminates: no aggregated mapping is
produced at all, hence no `Failure("timeout")` outcome within
`60 + epsilon`, and the fast sibling's outcome is never surfaced — the
coordinator blocks past any deadline, contradicting the claim and the
source's own comment `# 60 second timeout per platform`. -/
theorem claim_c5_bug :
    Platform.twitter ∈ dispatched env5 (generate_posts env5) ∧
    dur5 Platform.twitter = none ∧
    dur5 Platform.linkedin = some 1 ∧
    post_to_platforms_timed env5 dur5 (generate_posts env5) "idea" = none := by
  decide

/-- Claim C8 (amended): a failure of the outcome-logging sink does
affect the reported publish outcome.  Whenever the sink raises and the
client is initialized, the logging exception escapes `post_tweet`
(the success-path `log_post` sits inside the `try` block and the
generic handler's own `log_post` raises again) and the dispatch
boundary converts it into a failure outcome — in particular a tweet
the remote API accepted is reported as a Failure, not a Success.
`process_idea` itself still returns normally with that failure in its
per-platform mapping. -/
theorem claim_c8_amended (tenv : TwitterEnv) (content idea : String)
    (hc : tenv.clientInit = true) (hl : tenv.logFail = true) :
    wrapDispatch "twitter" (post_tweet tenv content idea)
      = mkFail ("Error posting to twitter: " ++ dbErr) := by
  cases hct : tenv.createTweet (truncate_content content 280 "twitter") with
  | ok o =>
    cases o with
    | none => simp [post_tweet, hc, hl, hct, wrapDispatch]
    | some tid => simp [post_tweet, hc, hl, hct, wrapDispatch]
  | error e => simp [post_tweet, hc, hl, hct, wrapDispatch]

/-- Witness for C8 (amended) at `tenv8`. -/
theorem claim_c8_witness :
    tenv8.clientInit = true ∧ tenv8.logFail = true ∧
    wrapDispatch "twitter" (post_tweet tenv8 "hello" "idea")
      = mkFail ("Error posting to twitter: " ++ dbErr) :=
  ⟨rfl, rfl, claim_c8_amended tenv8 "hello" "idea" rfl rfl⟩

/-- Counterexample for C8 as stated: in `env8` the remote Twitter API
accepts the tweet (`createTweet` returns id `"123"`), yet because
every `log_post` call raises, the platform's outcome inside the
aggregated `process_idea` result is the dispatch-boundary Failure, and
the overall result reports no success. -/
theorem claim_c8_counterexample :
    tenv8.createTweet (truncate_content "hello" 280 "twitter") = .ok (some "123") ∧
    (List.lookup Platform.twitter ((process_idea env8 "idea").val.resultsOf))
      = some (mkFail ("Error posting to twitter: " ++ dbErr)) ∧
    (process_idea env8 "idea").val.successOf = false := by
  refine ⟨rfl, ?_, ?_⟩ <;> decide

/-!
## Sanity checks of the embedding against hand-traced Python runs
-/

example : get_suitable_subreddits "AI in education" =
    ["artificial", "MachineLearning", "singularity"] := by decide
example : get_suitable_subreddits "zzz" = defaultSubreddits := by decide
example : redditTarget "cool gaming tricks" = "gaming" := by decide
example : (process_idea env1 "AI in education").val.resultsOf =
    [(.twitter, { success := true }),
     (.linkedin, mkFail "No content generated"),
     (.reddit, mkFail "Platform not available")] := by decide
example : (process_idea env1 "AI in education").val.countOf = 1 ∧
    (process_idea env1 "AI in education").val.successOf = true := by decide
